import Mathlib

/-!
Shallow embedding of the freeman actor core (state owner, network executor,
streaming HTTP client) translated from the Rust sources:
  src/messages/network.rs, src/app/state.rs, src/app/commands.rs,
  src/app/actor.rs, src/network/actor.rs, src/network/client.rs.

Conventions of the embedding:
- Rust `String` is Lean `String`; raw network byte buffers are `List Nat`
  (one entry per byte, each below 256).
- Rust `u64` counters are `Nat` with an explicit `% 2 ^ 64` where the source
  increments them (wrapping arithmetic).
- Wall-clock values (`chrono::Utc::now()`, `Instant::elapsed`) enter the
  functions as explicit `Nat` parameters, since they come from the outside.
- The serde_json pretty-print-or-raw step is an external library call in the
  source; the embedding takes it as an explicit function parameter `fmt`.
- Async loops (the streaming client, the actor dispatch loops) are embedded as
  pure functions over the list of resolved events, in the order the biased
  select of the source observes them.
-/

namespace Freeman

/-- Powers of two bound for u64 wrapping arithmetic. -/
def U64MOD : Nat := 2 ^ 64

-- ========================
-- Data model (src/models.rs)
-- ========================

/-- Embedding of `HttpMethod` from src/models.rs. -/
inductive HttpMethod where
  | get
  | post
  | put
  | patch
  | delete
deriving DecidableEq, Repr

/-- Embedding of `AuthType` from src/models.rs. -/
inductive AuthType where
  | auth_none
  | bearer (token : String)
  | basic (username : String) (password : String)
deriving DecidableEq, Repr

/-- Embedding of `Header` from src/models.rs. -/
structure Header where
  key : String
  value : String
  enabled : Bool
deriving DecidableEq, Repr

/-- Embedding of `Header::new` from src/models.rs. -/
def Header.new (key value : String) : Header :=
  { key := key, value := value, enabled := true }

/-- Embedding of `Request` from src/models.rs. -/
structure Request where
  name : String
  method : HttpMethod
  url : String
  headers : List Header
  body : String
  auth : AuthType
  ignoreSslErrors : Bool
deriving DecidableEq, Repr

/-- Embedding of `Request::default` from src/models.rs (DEFAULT_HTTP_URL from constants.rs). -/
def Request.defaultRequest : Request :=
  { name := "New Request"
    method := .get
    url := "https://httpbin.org/get"
    headers := [Header.new "Content-Type" "application/json",
                Header.new "Accept" "application/json"]
    body := ""
    auth := .auth_none
    ignoreSslErrors := false }

/-- Embedding of `Response` from src/models.rs. -/
structure Response where
  statusCode : Option Nat
  body : String
  timeMs : Nat
deriving DecidableEq, Repr

/-- Embedding of `Response::default` from src/models.rs (body text elided to its first line;
no embedded function ever inspects this text). -/
def Response.defaultResponse : Response :=
  { statusCode := Option.none
    body := "Quick Reference"
    timeMs := 0 }

/-- Embedding of `HistoryEntry` from src/models.rs; the chrono timestamp is a `Nat`. -/
structure HistoryEntry where
  request : Request
  response : Response
  timestamp : Nat
deriving DecidableEq, Repr

/-- Embedding of `Environment` from src/models.rs; the `HashMap` of variables is a list of
key-value pairs (only carried around by the claims, never iterated); the field
is named `vars` because `variables` is reserved in Lean. -/
structure Environment where
  name : String
  vars : List (String × String)
deriving DecidableEq, Repr

-- ========================
-- Message protocol (src/messages/network.rs)
-- ========================

/-- Embedding of `NetworkCommand` from src/messages/network.rs. -/
inductive NetworkCommand where
  | executeRequest (id : Nat) (request : Request) (environment : Option Environment)
  | executeStreamingRequest (id : Nat) (request : Request) (environment : Option Environment)
  | cancelRequest (id : Nat)
  | connectWebSocket (id : Nat) (url : String)
  | sendWebSocketMessage (id : Nat) (message : String)
  | closeWebSocket (id : Nat)
  | shutdown
deriving DecidableEq, Repr

/-- Embedding of `NetworkResponse` from src/messages/network.rs. -/
inductive NetworkResponse where
  | success (id : Nat) (status : Nat) (body : String) (timeMs : Nat)
  | streamChunk (id : Nat) (chunk : String) (bytesReceived : Nat)
  | streamComplete (id : Nat) (status : Nat) (totalBytes : Nat) (timeMs : Nat)
  | error (id : Nat) (message : String) (timeMs : Nat)
  | cancelled (id : Nat)
  | webSocketConnected (id : Nat)
  | webSocketMessage (id : Nat) (message : String)
  | webSocketClosed (id : Nat)
  | webSocketError (id : Nat) (error : String)
deriving DecidableEq, Repr

/-- Embedding of `NetworkResponse::id` from src/messages/network.rs. -/
def NetworkResponse.id : NetworkResponse → Nat
  | .success i _ _ _ => i
  | .streamChunk i _ _ => i
  | .streamComplete i _ _ _ => i
  | .error i _ _ => i
  | .cancelled i => i
  | .webSocketConnected i => i
  | .webSocketMessage i _ => i
  | .webSocketClosed i => i
  | .webSocketError i _ => i

/-- Embedding of `NetworkResponse::is_terminal` from src/messages/network.rs. -/
def NetworkResponse.isTerminal : NetworkResponse → Bool
  | .success _ _ _ _ => true
  | .streamComplete _ _ _ _ => true
  | .error _ _ _ => true
  | .cancelled _ => true
  | .webSocketClosed _ => true
  | .webSocketError _ _ => true
  | _ => false

/-- The HTTP-shaped response variants: the ones `handle_response` correlates
against `pending_request_id` (src/app/commands.rs, match arms before the
WebSocket group). -/
def NetworkResponse.isHttpShaped : NetworkResponse → Bool
  | .success _ _ _ _ => true
  | .streamChunk _ _ _ => true
  | .streamComplete _ _ _ _ => true
  | .error _ _ _ => true
  | .cancelled _ => true
  | _ => false

/-- The WebSocket-shaped response variants: the ones `handle_response`
correlates against `ws.connection_id` (src/app/commands.rs). -/
def NetworkResponse.isWsShaped : NetworkResponse → Bool
  | .webSocketConnected _ => true
  | .webSocketMessage _ _ => true
  | .webSocketClosed _ => true
  | .webSocketError _ _ => true
  | _ => false

/-- Recognizer for the `StreamComplete` variant. -/
def NetworkResponse.isStreamComplete : NetworkResponse → Bool
  | .streamComplete _ _ _ _ => true
  | _ => false

/-- Recognizer for the `Cancelled` variant. -/
def NetworkResponse.isCancelled : NetworkResponse → Bool
  | .cancelled _ => true
  | _ => false

/-- The response variants whose `handle_response` arm calls
`finalize_request` when the id matches (src/app/commands.rs): `Success`,
`StreamComplete` and `Error`, but not `Cancelled`, whose arm resets the
loading and streaming fields inline. -/
def NetworkResponse.isFinalizing : NetworkResponse → Bool
  | .success _ _ _ _ => true
  | .streamComplete _ _ _ _ => true
  | .error _ _ _ => true
  | _ => false

-- ========================
-- State owner state (src/app/state.rs, src/storage.rs)
-- ========================

/-- Embedding of `MAX_HISTORY` from src/storage.rs. -/
def MAX_HISTORY : Nat := 50

/-- Embedding of `Storage` from src/storage.rs, restricted to the fields the embedded
operations read or write; the `VecDeque` history is a list with its front at
the head. -/
structure Storage where
  history : List HistoryEntry
  environments : List Environment
  currentEnv : Option Nat
deriving DecidableEq, Repr

/-- Embedding of `Storage::new` from src/storage.rs; the on-disk load is I/O whose failure
is ignored, so the embedding starts from the empty in-memory state. -/
def Storage.new : Storage :=
  { history := [], environments := [], currentEnv := Option.none }

/-- Embedding of `Storage::add_to_history` from src/storage.rs: drop the back entry at
capacity, then push the new entry at the front. -/
def Storage.addToHistory (h : List HistoryEntry) (entry : HistoryEntry) : List HistoryEntry :=
  let h := if MAX_HISTORY ≤ h.length then h.dropLast else h
  entry :: h

/-- Embedding of `Storage::current_environment` from src/storage.rs. -/
def Storage.currentEnvironment (s : Storage) : Option Environment :=
  s.currentEnv.bind (fun i => s.environments.get? i)

/-- Embedding of `WsDirection` from src/app/state.rs. -/
inductive WsDirection where
  | sent
  | received
  | system
deriving DecidableEq, Repr

/-- Embedding of `WsLogEntry` from src/app/state.rs. -/
structure WsLogEntry where
  direction : WsDirection
  content : String
  timestamp : Nat
deriving DecidableEq, Repr

/-- Embedding of `WebSocketState` from src/app/state.rs. -/
structure WebSocketState where
  url : String
  urlCursor : Nat
  editingUrl : Bool
  connected : Bool
  connectionId : Option Nat
  messages : List WsLogEntry
  input : String
  cursorPosition : Nat
  scroll : Nat
deriving DecidableEq, Repr

/-- Embedding of `WebSocketState::default` from src/app/state.rs (DEFAULT_WS_URL from
constants.rs). -/
def WebSocketState.defaultWs : WebSocketState :=
  { url := "wss://echo.websocket.org"
    urlCursor := 0
    editingUrl := false
    connected := false
    connectionId := Option.none
    messages := []
    input := ""
    cursorPosition := 0
    scroll := 0 }

/-- Embedding of `InputMode` from src/messages/ui_events.rs (the two modes the actor core
reads). -/
inductive InputMode where
  | normal
  | editing
deriving DecidableEq, Repr

/-- Embedding of `AppState` from src/app/state.rs, restricted to the fields the embedded
actor-core operations read or write (panel/popup/workspace navigation fields
are untouched by every embedded function and are omitted). -/
structure AppState where
  request : Request
  cursorPosition : Nat
  inputMode : InputMode
  responseScroll : Nat
  response : Response
  isLoading : Bool
  nextRequestId : Nat
  pendingRequestId : Option Nat
  streamingBody : String
  bytesReceived : Nat
  historyIndex : Option Nat
  storage : Storage
  ws : WebSocketState
deriving DecidableEq, Repr

/-- Embedding of `AppState::new` from src/app/state.rs. -/
def AppState.new : AppState :=
  { request := Request.defaultRequest
    cursorPosition := 24
    inputMode := .normal
    responseScroll := 0
    response := Response.defaultResponse
    isLoading := false
    nextRequestId := 1
    pendingRequestId := Option.none
    streamingBody := ""
    bytesReceived := 0
    historyIndex := Option.none
    storage := Storage.new
    ws := WebSocketState.defaultWs }

/-- Embedding of `AppState::next_id` from src/app/state.rs: return the counter, then
increment it (u64 wrapping arithmetic modelled with `% 2 ^ 64`). -/
def AppState.nextId (s : AppState) : Nat × AppState :=
  (s.nextRequestId, { s with nextRequestId := (s.nextRequestId + 1) % U64MOD })

/-- Embedding of `AppState::stop_editing` from src/app/commands.rs. -/
def AppState.stopEditing (s : AppState) : AppState :=
  { s with inputMode := .normal }

-- ========================
-- State owner command handlers (src/app/commands.rs)
-- ========================

/-- Embedding of `AppState::prepare_streaming_request` from src/app/commands.rs. -/
def AppState.prepareStreamingRequest (s : AppState) : AppState × Option NetworkCommand :=
  if s.isLoading then
    (s, Option.none)
  else
    let s := { s with
      isLoading := true
      response := { s.response with body := "Starting request...", statusCode := Option.none }
      streamingBody := ""
      bytesReceived := 0 }
    let (id, s) := s.nextId
    ({ s with pendingRequestId := some id },
     some (.executeStreamingRequest id s.request s.storage.currentEnvironment))

/-- Embedding of `AppState::prepare_request` from src/app/commands.rs (buffered variant). -/
def AppState.prepareRequest (s : AppState) : AppState × Option NetworkCommand :=
  if s.isLoading then
    (s, Option.none)
  else
    let s := { s with
      isLoading := true
      response := { s.response with body := "Loading...", statusCode := Option.none } }
    let (id, s) := s.nextId
    ({ s with pendingRequestId := some id },
     some (.executeRequest id s.request s.storage.currentEnvironment))

/-- Embedding of `AppState::cancel_request` from src/app/commands.rs: emit a cancel command
for the pending id if there is one; no state field is mutated. -/
def AppState.cancelRequest (s : AppState) : AppState × Option NetworkCommand :=
  match s.pendingRequestId with
  | some id => (s, some (.cancelRequest id))
  | Option.none => (s, Option.none)

/-- Embedding of `AppState::ws_connect` from src/app/commands.rs. -/
def AppState.wsConnect (now : Nat) (s : AppState) : AppState × Option NetworkCommand :=
  if s.ws.connected then
    (s, Option.none)
  else
    let (id, s) := s.nextId
    let s := { s with ws := { s.ws with
      connectionId := some id
      messages := s.ws.messages ++
        [{ direction := .system
           content := "Connecting to " ++ s.ws.url ++ "..."
           timestamp := now }] } }
    (s, some (.connectWebSocket id s.ws.url))

/-- Embedding of `AppState::ws_disconnect` from src/app/commands.rs. -/
def AppState.wsDisconnect (now : Nat) (s : AppState) : AppState × Option NetworkCommand :=
  match s.ws.connectionId with
  | some id =>
      ({ s with ws := { s.ws with
          messages := s.ws.messages ++
            [{ direction := .system, content := "Disconnecting...", timestamp := now }] } },
       some (.closeWebSocket id))
  | Option.none => (s, Option.none)

/-- Embedding of `AppState::ws_send` from src/app/commands.rs. -/
def AppState.wsSend (now : Nat) (s : AppState) : AppState × Option NetworkCommand :=
  if !s.ws.connected || s.ws.input.isEmpty then
    (s, Option.none)
  else
    match s.ws.connectionId with
    | some id =>
        let message := s.ws.input
        ({ s with ws := { s.ws with
            messages := s.ws.messages ++
              [{ direction := .sent, content := message, timestamp := now }]
            input := ""
            cursorPosition := 0 } },
         some (.sendWebSocketMessage id message))
    | Option.none => (s, Option.none)

/-- The progress text built by the `StreamChunk` arm of `handle_response`
(src/app/commands.rs): the byte count rendered in decimal between the two
fixed text pieces, then a blank line, then the accumulated body. -/
def streamingProgressMsg (bytesReceived : Nat) (body : String) : String :=
  "Streaming... " ++ toString bytesReceived ++ " bytes received\n\n" ++ body

/-- Embedding of `AppState::finalize_request` from src/app/commands.rs: reset the loading
and streaming fields, then append a history entry built from the current
request and response. -/
def AppState.finalizeRequest (now : Nat) (s : AppState) : AppState :=
  let s := { s with
    isLoading := false
    pendingRequestId := Option.none
    responseScroll := 0
    streamingBody := ""
    bytesReceived := 0 }
  let entry : HistoryEntry := { request := s.request, response := s.response, timestamp := now }
  { s with
    storage := { s.storage with history := Storage.addToHistory s.storage.history entry }
    historyIndex := Option.none }

/-- Embedding of `AppState::handle_response` from src/app/commands.rs. `fmt` is the
serde_json pretty-print-or-raw step used by the `StreamComplete` arm; `now` is
the wall clock read by the WebSocket log arms and the finalize step. -/
def AppState.handleResponse (fmt : String → String) (now : Nat)
    (s : AppState) (r : NetworkResponse) : AppState :=
  let responseId := r.id
  let isForPending : Bool := s.pendingRequestId = some responseId
  match r with
  | .success _ status body timeMs =>
      if isForPending then
        AppState.finalizeRequest now
          { s with response := { statusCode := some status, body := body, timeMs := timeMs } }
      else s
  | .streamChunk _ chunk bytesReceived =>
      if isForPending then
        let sb := s.streamingBody ++ chunk
        { s with
          streamingBody := sb
          bytesReceived := bytesReceived
          response := { s.response with body := streamingProgressMsg bytesReceived sb } }
      else s
  | .streamComplete _ status totalBytes timeMs =>
      if isForPending then
        let formatted := fmt s.streamingBody
        AppState.finalizeRequest now
          { s with
            response := { statusCode := some status, body := formatted, timeMs := timeMs }
            bytesReceived := totalBytes }
      else s
  | .error _ message timeMs =>
      if isForPending then
        AppState.finalizeRequest now
          { s with response := { statusCode := Option.none, body := message, timeMs := timeMs } }
      else s
  | .cancelled _ =>
      if isForPending then
        { s with
          response := { statusCode := Option.none, body := "Request cancelled", timeMs := 0 }
          isLoading := false
          pendingRequestId := Option.none
          streamingBody := ""
          bytesReceived := 0 }
      else s
  | .webSocketConnected id =>
      if s.ws.connectionId = some id then
        { s with ws := { s.ws with
            connected := true
            messages := s.ws.messages ++
              [{ direction := .system, content := "Connected!", timestamp := now }] } }
      else s
  | .webSocketMessage id message =>
      if s.ws.connectionId = some id then
        { s with ws := { s.ws with
            messages := s.ws.messages ++
              [{ direction := .received, content := message, timestamp := now }] } }
      else s
  | .webSocketClosed id =>
      if s.ws.connectionId = some id then
        { s with ws := { s.ws with
            connected := false
            connectionId := Option.none
            messages := s.ws.messages ++
              [{ direction := .system, content := "Connection closed", timestamp := now }] } }
      else s
  | .webSocketError id e =>
      if s.ws.connectionId = some id then
        { s with ws := { s.ws with
            connected := false
            connectionId := Option.none
            messages := s.ws.messages ++
              [{ direction := .system, content := "Error: " ++ e, timestamp := now }] } }
      else s

/-- The `UiEvent::SendRequest` arm of `AppActor::handle_ui_event`
(src/app/actor.rs): leave editing mode first, then prepare the streaming
request. -/
def AppState.handleSendRequest (s : AppState) : AppState × Option NetworkCommand :=
  let s := if s.inputMode = .editing then s.stopEditing else s
  s.prepareStreamingRequest

-- ========================
-- State owner event loop (src/app/actor.rs)
-- ========================

/-- The items the state owner loop consumes that touch the networking core:
the command-producing UI events dispatched by `AppActor::handle_ui_event` and
an incoming network response (src/app/actor.rs). Each event carries the wall
clock value read while handling it. -/
inductive OwnerEvent where
  | sendRequest
  | cancelEvent
  | wsConnectEvent (now : Nat)
  | wsDisconnectEvent (now : Nat)
  | wsSendEvent (now : Nat)
  | netResponse (now : Nat) (r : NetworkResponse)

/-- One apply-and-emit cycle of `AppActor::run` (src/app/actor.rs): dispatch a
UI event to its handler and forward its command, or apply a network response
(which emits no command). -/
def ownerStep (fmt : String → String) (s : AppState) :
    OwnerEvent → AppState × Option NetworkCommand
  | .sendRequest => s.handleSendRequest
  | .cancelEvent => s.cancelRequest
  | .wsConnectEvent now => AppState.wsConnect now s
  | .wsDisconnectEvent now => AppState.wsDisconnect now s
  | .wsSendEvent now => AppState.wsSend now s
  | .netResponse now r => (AppState.handleResponse fmt now s r, Option.none)

/-- Run the state owner loop over a list of events, collecting the commands it
pushes to the network queue in order (src/app/actor.rs). -/
def runOwner (fmt : String → String) (s : AppState) :
    List OwnerEvent → AppState × List NetworkCommand
  | [] => (s, [])
  | ev :: rest =>
      let (s1, c) := ownerStep fmt s ev
      let (s2, cs) := runOwner fmt s1 rest
      (s2, c.toList ++ cs)

/-- The id carried by a command that establishes a new network identity: the
HTTP request commands and the WebSocket connect command, each built around a
fresh `next_id` in src/app/commands.rs. -/
def NetworkCommand.mintedId : NetworkCommand → Option Nat
  | .executeRequest id _ _ => some id
  | .executeStreamingRequest id _ _ => some id
  | .connectWebSocket id _ => some id
  | _ => Option.none

/-- The ids minted along a list of emitted commands. -/
def mintedIds (cs : List NetworkCommand) : List Nat :=
  cs.filterMap NetworkCommand.mintedId

-- ========================
-- Network executor (src/network/actor.rs)
-- ========================

/-- The registration state of `NetworkActor` (src/network/actor.rs): the key
sets of the `cancel_handles` and `websockets` hash maps. The payload of each
map entry (the oneshot sender, the message queue) lives inside the spawned
tasks, which are modelled separately as event-list functions. -/
structure NetState where
  cancelHandles : List Nat
  websockets : List Nat
deriving DecidableEq, Repr

/-- Embedding of `HashMap::insert` on the key set: replace an existing key, keep the rest. -/
def insertKey (l : List Nat) (id : Nat) : List Nat :=
  id :: l.filter (fun x => x ≠ id)

/-- Embedding of `HashMap::remove` on the key set. -/
def removeKey (l : List Nat) (id : Nat) : List Nat :=
  l.filter (fun x => x ≠ id)

/-- One command dispatch of `NetworkActor::run` (src/network/actor.rs):
returns the updated registration state and the responses the dispatch itself
sends (responses produced by spawned tasks are modelled by the task
functions, not here). -/
def netStep (s : NetState) : NetworkCommand → NetState × List NetworkResponse
  | .executeRequest _ _ _ => (s, [])
  | .executeStreamingRequest id _ _ =>
      ({ s with cancelHandles := insertKey s.cancelHandles id }, [])
  | .cancelRequest id =>
      if id ∈ s.cancelHandles then
        ({ s with cancelHandles := removeKey s.cancelHandles id }, [.cancelled id])
      else (s, [])
  | .connectWebSocket id _ =>
      ({ s with websockets := insertKey s.websockets id }, [])
  | .sendWebSocketMessage _ _ => (s, [])
  | .closeWebSocket id =>
      ({ s with websockets := removeKey s.websockets id }, [])
  | .shutdown => ({ cancelHandles := [], websockets := [] }, [])

-- ========================
-- Streaming HTTP client (src/network/client.rs)
-- ========================

/-- A continuation byte check for strict UTF-8 validation. -/
def isUtf8Cont (b : Nat) : Bool := decide (0x80 ≤ b ∧ b ≤ 0xBF)

/-- Strict UTF-8 decoding of a byte list, mirroring the validation performed
by `String::from_utf8` in the chunk arm of `execute_streaming_request`
(src/network/client.rs): ASCII, two-byte leads C2..DF, three-byte leads
E0..EF with the E0/ED restrictions excluding overlong forms and surrogates,
four-byte leads F0..F4 with the F0/F4 restrictions bounding the range at
U+10FFFF. -/
def utf8Decode : List Nat → Option (List Char)
  | [] => some []
  | b :: rest =>
    if b ≤ 0x7F then
      (utf8Decode rest).map (fun cs => Char.ofNat b :: cs)
    else if 0xC2 ≤ b ∧ b ≤ 0xDF then
      match rest with
      | b1 :: rest2 =>
          if isUtf8Cont b1 then
            (utf8Decode rest2).map
              (fun cs => Char.ofNat ((b - 0xC0) * 0x40 + (b1 - 0x80)) :: cs)
          else Option.none
      | [] => Option.none
    else if 0xE0 ≤ b ∧ b ≤ 0xEF then
      match rest with
      | b1 :: b2 :: rest3 =>
          let lo := if b = 0xE0 then 0xA0 else 0x80
          let hi := if b = 0xED then 0x9F else 0xBF
          if lo ≤ b1 ∧ b1 ≤ hi ∧ isUtf8Cont b2 then
            (utf8Decode rest3).map
              (fun cs =>
                Char.ofNat ((b - 0xE0) * 0x1000 + (b1 - 0x80) * 0x40 + (b2 - 0x80)) :: cs)
          else Option.none
      | _ => Option.none
    else if 0xF0 ≤ b ∧ b ≤ 0xF4 then
      match rest with
      | b1 :: b2 :: b3 :: rest4 =>
          let lo := if b = 0xF0 then 0x90 else 0x80
          let hi := if b = 0xF4 then 0x8F else 0xBF
          if lo ≤ b1 ∧ b1 ≤ hi ∧ isUtf8Cont b2 ∧ isUtf8Cont b3 then
            (utf8Decode rest4).map
              (fun cs =>
                Char.ofNat ((b - 0xF0) * 0x40000 + (b1 - 0x80) * 0x1000 +
                  (b2 - 0x80) * 0x40 + (b3 - 0x80)) :: cs)
          else Option.none
      | _ => Option.none
    else Option.none

/-- Embedding of `String::from_utf8(bytes)` from the chunk arm of
`execute_streaming_request` (src/network/client.rs). -/
def utf8ToString (bs : List Nat) : Option String :=
  (utf8Decode bs).map List.asString

/-- One resolved outcome of the biased select inside the streaming loop of
`execute_streaming_request` (src/network/client.rs): either the cancellation
receiver fired, or `stream.next()` returned a chunk, a stream error, or the
end of the stream. The biased select checks cancellation first, so a fired
cancellation appears in the schedule at the loop iteration where the task
observes it. -/
inductive StreamEvent where
  | cancelFired
  | chunkOk (bytes : List Nat)
  | chunkErr (message : String)
  | streamEnd

/-- The streaming loop of `execute_streaming_request` (src/network/client.rs)
run over a schedule of resolved select outcomes, from accumulator state
`total` bytes and `body` text: returns the responses the task sends, in
order. `fmt` is the serde_json pretty-print-or-raw step at end of stream;
`elapsed` the wall clock read for terminal responses. A schedule that runs
out of events is a task still suspended, which has sent nothing further. -/
def streamLoop (fmt : String → String) (requestId status elapsed : Nat)
    (total : Nat) (body : String) : List StreamEvent → List NetworkResponse
  | [] => []
  | .cancelFired :: _ => []
  | .chunkOk bytes :: rest =>
      let total1 := total + bytes.length
      match utf8ToString bytes with
      | some text =>
          .streamChunk requestId text total1 ::
            streamLoop fmt requestId status elapsed total1 (body ++ text) rest
      | Option.none =>
          streamLoop fmt requestId status elapsed total1 body rest
  | .chunkErr e :: _ =>
      [.error requestId ("Stream error: " ++ e) elapsed]
  | .streamEnd :: _ =>
      [.success requestId status (fmt body) elapsed]

/-- Embedding of `execute_streaming_request` (src/network/client.rs): the initial send
either fails, producing one formatted error response (`fmtErr` stands for
`format_request_error`, pure text formatting), or succeeds with a status and
the loop then runs over the chunk/cancel schedule. -/
def execStreamingRequest (fmt fmtErr : String → String) (requestId elapsed : Nat)
    (sendResult : Except String Nat) (events : List StreamEvent) : List NetworkResponse :=
  match sendResult with
  | .error e => [.error requestId (fmtErr e) elapsed]
  | .ok status => streamLoop fmt requestId status elapsed 0 "" events

-- ========================
-- Helper lemmas
-- ========================

/-- While loading, `prepare_streaming_request` returns early, emitting nothing
and changing nothing. -/
theorem prepareStreamingRequest_loading (s : AppState) (h : s.isLoading = true) :
    s.prepareStreamingRequest = (s, Option.none) := by
  simp [AppState.prepareStreamingRequest, h]

/-- An HTTP-shaped response finds no pending id and leaves the state alone. -/
theorem handleResponse_no_pending (fmt : String → String) (now : Nat)
    (s : AppState) (r : NetworkResponse)
    (hp : s.pendingRequestId = Option.none) (hshape : r.isHttpShaped = true) :
    AppState.handleResponse fmt now s r = s := by
  cases r <;>
    simp_all [AppState.handleResponse, NetworkResponse.id, NetworkResponse.isHttpShaped]

-- ========================
-- C1
-- ========================

/-- C1: a SendRequest event arriving while `is_loading` is true produces no
NetworkCommand and mints no id: `pending_request_id`, `next_request_id` and
`is_loading` are all left unchanged (the pending id is an `Option`, so at
most one HTTP request id is pending by construction, and this theorem shows a
second send while one is pending cannot replace or add one). -/
theorem c1_send_while_loading_is_rejected (s : AppState) (h : s.isLoading = true) :
    s.handleSendRequest.2 = Option.none ∧
    s.handleSendRequest.1.pendingRequestId = s.pendingRequestId ∧
    s.handleSendRequest.1.nextRequestId = s.nextRequestId ∧
    s.handleSendRequest.1.isLoading = true := by
  unfold AppState.handleSendRequest
  by_cases hm : s.inputMode = .editing <;>
    simp [hm, AppState.stopEditing, prepareStreamingRequest_loading, h,
      prepareStreamingRequest_loading { s with inputMode := .normal } h]

/-- Witness for C1 at a concrete loading state. -/
theorem c1_send_while_loading_is_rejected_witness :
    ({ AppState.new with isLoading := true } : AppState).handleSendRequest.2 = Option.none ∧
    ({ AppState.new with isLoading := true } : AppState).handleSendRequest.1.pendingRequestId
      = ({ AppState.new with isLoading := true } : AppState).pendingRequestId ∧
    ({ AppState.new with isLoading := true } : AppState).handleSendRequest.1.nextRequestId
      = ({ AppState.new with isLoading := true } : AppState).nextRequestId ∧
    ({ AppState.new with isLoading := true } : AppState).handleSendRequest.1.isLoading = true :=
  c1_send_while_loading_is_rejected { AppState.new with isLoading := true } rfl

-- ========================
-- C2
-- ========================

/-- C2: `handle_response` mutates the state only on an id match: an
HTTP-shaped response whose id differs from the pending id, or a
WebSocket-shaped response whose id differs from the tracked connection id,
leaves the entire state unchanged. -/
theorem c2_mismatched_response_discarded (fmt : String → String) (now : Nat)
    (s : AppState) (r : NetworkResponse)
    (hHttp : r.isHttpShaped = true → s.pendingRequestId ≠ some r.id)
    (hWs : r.isWsShaped = true → s.ws.connectionId ≠ some r.id) :
    AppState.handleResponse fmt now s r = s := by
  cases r <;>
    simp_all [AppState.handleResponse, NetworkResponse.id,
      NetworkResponse.isHttpShaped, NetworkResponse.isWsShaped]

/-- Witness for C2: scenario D, a late response for id 1 arriving after id 2
became pending is discarded. -/
theorem c2_mismatched_response_discarded_witness :
    AppState.handleResponse (fun b => b) 0
      { AppState.new with pendingRequestId := some 2, isLoading := true }
      (.success 1 200 "late" 5)
      = { AppState.new with pendingRequestId := some 2, isLoading := true } :=
  c2_mismatched_response_discarded (fun b => b) 0
    { AppState.new with pendingRequestId := some 2, isLoading := true }
    (.success 1 200 "late" 5)
    (fun _ => by decide)
    (fun hws => by simp [NetworkResponse.isWsShaped] at hws)

-- ========================
-- C8
-- ========================

/-- C8: cancelling a non-existent id is a no-op at both ends. In the state
owner, a cancel event with no pending id emits no command and changes no
state, while a pending id always yields a `CancelRequest` command carrying
it; in the executor, a `CancelRequest` for an unregistered id emits no
response and fires no signal. -/
theorem c8_cancel_nonexistent_is_noop :
    (∀ s : AppState, s.pendingRequestId = Option.none →
        s.cancelRequest = (s, Option.none)) ∧
    (∀ (s : AppState) (i : Nat), s.pendingRequestId = some i →
        s.cancelRequest = (s, some (.cancelRequest i))) ∧
    (∀ (ns : NetState) (i : Nat), i ∉ ns.cancelHandles →
        netStep ns (.cancelRequest i) = (ns, [])) := by
  refine ⟨fun s h => ?_, fun s i h => ?_, fun ns i h => ?_⟩
  · simp [AppState.cancelRequest, h]
  · simp [AppState.cancelRequest, h]
  · simp [netStep, h]

/-- Witness for C8 at concrete states on both ends. -/
theorem c8_cancel_nonexistent_is_noop_witness :
    AppState.new.cancelRequest = (AppState.new, Option.none) ∧
    ({ AppState.new with pendingRequestId := some 7 } : AppState).cancelRequest
      = ({ AppState.new with pendingRequestId := some 7 }, some (.cancelRequest 7)) ∧
    netStep { cancelHandles := [], websockets := [] } (.cancelRequest 3)
      = ({ cancelHandles := [], websockets := [] }, []) :=
  ⟨c8_cancel_nonexistent_is_noop.1 AppState.new rfl,
   c8_cancel_nonexistent_is_noop.2.1 { AppState.new with pendingRequestId := some 7 } 7 rfl,
   c8_cancel_nonexistent_is_noop.2.2 { cancelHandles := [], websockets := [] } 3 (by decide)⟩

-- ========================
-- C10
-- ========================

/-- C10: a delivered chunk whose bytes are not valid UTF-8 produces no
`StreamChunk` response and is not appended to the accumulated body, yet its
byte length is still added to the cumulative counter; in the concrete run
with chunks `a`, an invalid byte 0xFF, then `b`, the second emitted chunk
reports 3 cumulative bytes while the accumulated body is just `ab`. -/
theorem c10_invalid_utf8_counted_not_appended :
    (∀ (fmt : String → String) (requestId status elapsed total : Nat) (body : String)
        (bytes : List Nat) (rest : List StreamEvent),
        utf8ToString bytes = Option.none →
        streamLoop fmt requestId status elapsed total body (.chunkOk bytes :: rest)
          = streamLoop fmt requestId status elapsed (total + bytes.length) body rest) ∧
    (∀ fmt : String → String,
        streamLoop fmt 1 200 9 0 ""
            [.chunkOk [97], .chunkOk [255], .chunkOk [98], .streamEnd]
          = [.streamChunk 1 "a" 1, .streamChunk 1 "b" 3, .success 1 200 (fmt "ab") 9]) := by
  constructor
  · intro fmt requestId status elapsed total body bytes rest h
    simp [streamLoop, h]
  · intro fmt
    rfl

/-- Witness for C10: the invalid chunk `[255]` is skipped but counted. -/
theorem c10_invalid_utf8_counted_not_appended_witness :
    utf8ToString [255] = Option.none ∧
    streamLoop (fun b => b) 5 200 0 7 "x" [.chunkOk [255]]
      = streamLoop (fun b => b) 5 200 0 (7 + 1) "x" [] :=
  ⟨rfl, c10_invalid_utf8_counted_not_appended.1 (fun b => b) 5 200 0 7 "x" [255] [] rfl⟩

-- ========================
-- C4
-- ========================

/-- C4 counterexample: for the streaming run of scenario A (chunks `ab` then
`cd`, then end of stream) the task emits the two `StreamChunk` responses with
cumulative bytes 2 and 4, but the terminal response is a `Success` carrying
the accumulated body, not a `StreamComplete`: no `StreamComplete` appears in
the output at all. -/
theorem c4_counterexample :
    streamLoop (fun b => b) 1 200 0 0 "" [.chunkOk [97, 98], .chunkOk [99, 100], .streamEnd]
      = [.streamChunk 1 "ab" 2, .streamChunk 1 "cd" 4, .success 1 200 "abcd" 0] ∧
    (streamLoop (fun b => b) 1 200 0 0 ""
        [.chunkOk [97, 98], .chunkOk [99, 100], .streamEnd]).all
      (fun r => !r.isStreamComplete) = true := by
  constructor
  · rfl
  · rfl

/-- C4 amended: issuing streaming request id=1 whose stream delivers `ab`
then `cd` and then ends emits exactly two `StreamChunk` responses for id 1
with cumulative bytes 2 and 4, followed by one terminal `Success` response
for id 1 carrying the formatted accumulated body `abcd` and the upstream
status, and no other responses. -/
theorem c4_amended_stream_success (fmt : String → String) (elapsed : Nat) :
    streamLoop fmt 1 200 elapsed 0 "" [.chunkOk [97, 98], .chunkOk [99, 100], .streamEnd]
      = [.streamChunk 1 "ab" 2, .streamChunk 1 "cd" 4, .success 1 200 (fmt "abcd") elapsed] :=
  rfl

-- ========================
-- C5
-- ========================

/-- C5: once a streaming task observes the cancellation signal, it emits no
further `StreamChunk` and no terminal response of its own: every schedule of
select outcomes continuing past the observed cancellation produces exactly
the responses of the schedule truncated at the cancellation. And cancelling
the same id twice at the executor has the effect of cancelling it once: the
first `CancelRequest` removes the handle, so the second changes nothing and
emits nothing. -/
theorem c5_cancellation_stops_output_and_is_idempotent :
    (∀ (fmt : String → String) (requestId status elapsed : Nat)
        (pre post : List StreamEvent) (total : Nat) (body : String),
        streamLoop fmt requestId status elapsed total body
            (pre ++ StreamEvent.cancelFired :: post)
          = streamLoop fmt requestId status elapsed total body
              (pre ++ [StreamEvent.cancelFired])) ∧
    (∀ (ns : NetState) (i : Nat),
        netStep (netStep ns (.cancelRequest i)).1 (.cancelRequest i)
          = ((netStep ns (.cancelRequest i)).1, [])) := by
  constructor
  · intro fmt requestId status elapsed pre post
    induction pre with
    | nil => intro total body; rfl
    | cons ev rest ih =>
        intro total body
        cases ev with
        | cancelFired => rfl
        | chunkOk bytes =>
            simp only [List.cons_append, streamLoop]
            cases h : utf8ToString bytes <;> simp [h, ih]
        | chunkErr m => rfl
        | streamEnd => rfl
  · intro ns i
    by_cases h : i ∈ ns.cancelHandles
    · simp [netStep, h, removeKey, List.mem_filter]
    · simp [netStep, h]

-- ========================
-- C3
-- ========================

/-- C3 counterexample: a matching terminal `Cancelled` response does not run
the finalize routine: from a state with pending id 1, scroll 5 and empty
history, handling `Cancelled(1)` leaves the scroll at 5 and appends no
HistoryEntry, contradicting the claim that every terminal HTTP-shaped
response (including `Cancelled`) finalizes. -/
theorem c3_counterexample :
    (AppState.handleResponse (fun b => b) 0
        { AppState.new with pendingRequestId := some 1, isLoading := true, responseScroll := 5 }
        (.cancelled 1)).responseScroll = 5 ∧
    (AppState.handleResponse (fun b => b) 0
        { AppState.new with pendingRequestId := some 1, isLoading := true, responseScroll := 5 }
        (.cancelled 1)).storage.history.length = 0 := by
  exact ⟨rfl, rfl⟩

/-- C3 amended: a matching `Success`, `StreamComplete` or `Error` response is
handed to the finalize routine (applied to the state with the branch-updated
response record); the finalize routine clears the pending id, resets the
scroll and the streaming accumulator and byte counter, and appends exactly
one HistoryEntry built from the current request and response; a matching
`Cancelled` response does not finalize: it clears the pending id and the
streaming fields but leaves the scroll and the history untouched. -/
theorem c3_terminal_finalization (fmt : String → String) (now : Nat) (s : AppState) :
    (∀ i st b t, s.pendingRequestId = some i →
        AppState.handleResponse fmt now s (.success i st b t)
          = AppState.finalizeRequest now
              { s with response := { statusCode := some st, body := b, timeMs := t } }) ∧
    (∀ i st tb t, s.pendingRequestId = some i →
        AppState.handleResponse fmt now s (.streamComplete i st tb t)
          = AppState.finalizeRequest now
              { s with
                response := { statusCode := some st, body := fmt s.streamingBody, timeMs := t }
                bytesReceived := tb }) ∧
    (∀ i m t, s.pendingRequestId = some i →
        AppState.handleResponse fmt now s (.error i m t)
          = AppState.finalizeRequest now
              { s with response := { statusCode := Option.none, body := m, timeMs := t } }) ∧
    (∀ (now2 : Nat) (s2 : AppState),
        (AppState.finalizeRequest now2 s2).isLoading = false ∧
        (AppState.finalizeRequest now2 s2).pendingRequestId = Option.none ∧
        (AppState.finalizeRequest now2 s2).responseScroll = 0 ∧
        (AppState.finalizeRequest now2 s2).streamingBody = "" ∧
        (AppState.finalizeRequest now2 s2).bytesReceived = 0 ∧
        (AppState.finalizeRequest now2 s2).storage.history
          = Storage.addToHistory s2.storage.history
              { request := s2.request, response := s2.response, timestamp := now2 }) ∧
    (∀ i, s.pendingRequestId = some i →
        (AppState.handleResponse fmt now s (.cancelled i)).storage.history
          = s.storage.history ∧
        (AppState.handleResponse fmt now s (.cancelled i)).responseScroll
          = s.responseScroll ∧
        (AppState.handleResponse fmt now s (.cancelled i)).pendingRequestId
          = Option.none) := by
  refine ⟨fun i st b t hp => ?_, fun i st tb t hp => ?_, fun i m t hp => ?_,
    fun now2 s2 => ?_, fun i hp => ?_⟩
  · simp [AppState.handleResponse, NetworkResponse.id, hp]
  · simp [AppState.handleResponse, NetworkResponse.id, hp]
  · simp [AppState.handleResponse, NetworkResponse.id, hp]
  · simp [AppState.finalizeRequest]
  · simp [AppState.handleResponse, NetworkResponse.id, hp]

/-- Witness for C3 at a concrete matching success response. -/
theorem c3_terminal_finalization_witness :
    AppState.handleResponse (fun b => b) 7
        { AppState.new with pendingRequestId := some 1, isLoading := true }
        (.success 1 200 "ok" 3)
      = AppState.finalizeRequest 7
          { AppState.new with
            pendingRequestId := some 1
            isLoading := true
            response := { statusCode := some 200, body := "ok", timeMs := 3 } } ∧
    (AppState.finalizeRequest 7 AppState.new).pendingRequestId = Option.none :=
  ⟨(c3_terminal_finalization (fun b => b) 7
      { AppState.new with pendingRequestId := some 1, isLoading := true }).1
      1 200 "ok" 3 rfl,
   ((c3_terminal_finalization (fun b => b) 7 AppState.new).2.2.2.1 7 AppState.new).2.1⟩

-- ========================
-- C7
-- ========================

/-- C7 counterexample: applying the same matching terminal response twice
does not always append exactly one HistoryEntry: for `Cancelled(1)` applied
twice from a state with pending id 1 and empty history, the history stays
empty. -/
theorem c7_counterexample :
    (AppState.handleResponse (fun b => b) 0
        (AppState.handleResponse (fun b => b) 0
          { AppState.new with pendingRequestId := some 1, isLoading := true }
          (.cancelled 1))
        (.cancelled 1)).storage.history.length = 0 := by
  exact rfl

/-- C7 amended: applying the same matching terminal HTTP-shaped response
twice appends at most one HistoryEntry: exactly one when the response is
`Success`, `StreamComplete` or `Error`, and none when it is `Cancelled`; in
every case the first application deregisters the pending id, so the second
application fails the id-match check and changes nothing. -/
theorem c7_terminal_response_idempotent (fmt : String → String) (now now2 : Nat)
    (s : AppState) (r : NetworkResponse) (hp : s.pendingRequestId = some r.id)
    (hterm : r.isTerminal = true) (hhttp : r.isHttpShaped = true) :
    AppState.handleResponse fmt now2 (AppState.handleResponse fmt now s r) r
      = AppState.handleResponse fmt now s r ∧
    (AppState.handleResponse fmt now s r).pendingRequestId = Option.none ∧
    (r.isFinalizing = true →
        (AppState.handleResponse fmt now s r).storage.history
          = Storage.addToHistory s.storage.history
              { request := s.request
                response := (AppState.handleResponse fmt now s r).response
                timestamp := now }) ∧
    (r.isCancelled = true →
        (AppState.handleResponse fmt now s r).storage.history = s.storage.history) := by
  have h1 : (AppState.handleResponse fmt now s r).pendingRequestId = Option.none := by
    cases r <;> simp_all [AppState.handleResponse, AppState.finalizeRequest,
      NetworkResponse.id, NetworkResponse.isTerminal, NetworkResponse.isHttpShaped]
  refine ⟨handleResponse_no_pending fmt now2 _ r h1 hhttp, h1, fun hfin => ?_, fun hc => ?_⟩
  · cases r <;> simp_all [AppState.handleResponse, AppState.finalizeRequest,
      NetworkResponse.id, NetworkResponse.isFinalizing]
  · cases r <;> simp_all [AppState.handleResponse,
      NetworkResponse.id, NetworkResponse.isCancelled]

/-- Witness for C7 at a concrete matching success response. -/
theorem c7_terminal_response_idempotent_witness :
    AppState.handleResponse (fun b => b) 9
        (AppState.handleResponse (fun b => b) 4
          { AppState.new with pendingRequestId := some 3, isLoading := true }
          (.success 3 200 "done" 2))
        (.success 3 200 "done" 2)
      = AppState.handleResponse (fun b => b) 4
          { AppState.new with pendingRequestId := some 3, isLoading := true }
          (.success 3 200 "done" 2) ∧
    (AppState.handleResponse (fun b => b) 4
        { AppState.new with pendingRequestId := some 3, isLoading := true }
        (.success 3 200 "done" 2)).pendingRequestId = Option.none ∧
    (NetworkResponse.isFinalizing (.success 3 200 "done" 2) = true →
        (AppState.handleResponse (fun b => b) 4
            { AppState.new with pendingRequestId := some 3, isLoading := true }
            (.success 3 200 "done" 2)).storage.history
          = Storage.addToHistory
              ({ AppState.new with
                  pendingRequestId := some 3, isLoading := true } : AppState).storage.history
              { request := ({ AppState.new with
                  pendingRequestId := some 3, isLoading := true } : AppState).request
                response := (AppState.handleResponse (fun b => b) 4
                  { AppState.new with pendingRequestId := some 3, isLoading := true }
                  (.success 3 200 "done" 2)).response
                timestamp := 4 }) ∧
    (NetworkResponse.isCancelled (.success 3 200 "done" 2) = true →
        (AppState.handleResponse (fun b => b) 4
            { AppState.new with pendingRequestId := some 3, isLoading := true }
            (.success 3 200 "done" 2)).storage.history
          = ({ AppState.new with
              pendingRequestId := some 3, isLoading := true } : AppState).storage.history) :=
  c7_terminal_response_idempotent (fun b => b) 4 9
    { AppState.new with pendingRequestId := some 3, isLoading := true }
    (.success 3 200 "done" 2) rfl rfl rfl

-- ========================
-- C9
-- ========================

/-- C9: a WsConnect event is rejected only when the session is already
connected; while `connected` is false (a connect attempt may still be in
flight), a WsConnect event mints the current counter value as a fresh id and
overwrites `connection_id` with it, and every WebSocket response carrying an
id different from the tracked `connection_id` is silently discarded. -/
theorem c9_ws_reconnect_overwrites_and_stale_discarded
    (fmt : String → String) (now now2 : Nat) (s : AppState) :
    (s.ws.connected = true → AppState.wsConnect now s = (s, Option.none)) ∧
    (s.ws.connected = false →
        (AppState.wsConnect now s).1.ws.connectionId = some s.nextRequestId ∧
        (AppState.wsConnect now s).1.nextRequestId = (s.nextRequestId + 1) % U64MOD ∧
        (AppState.wsConnect now s).2
          = some (.connectWebSocket s.nextRequestId s.ws.url)) ∧
    (∀ i, s.ws.connectionId ≠ some i →
        AppState.handleResponse fmt now2 s (.webSocketConnected i) = s ∧
        (∀ m, AppState.handleResponse fmt now2 s (.webSocketMessage i m) = s) ∧
        AppState.handleResponse fmt now2 s (.webSocketClosed i) = s ∧
        (∀ e, AppState.handleResponse fmt now2 s (.webSocketError i e) = s)) := by
  refine ⟨fun hc => ?_, fun hc => ?_, fun i hi => ?_⟩
  · simp [AppState.wsConnect, hc]
  · simp [AppState.wsConnect, AppState.nextId, hc]
  · refine ⟨?_, fun m => ?_, ?_, fun e => ?_⟩ <;>
      simp [AppState.handleResponse, NetworkResponse.id, hi]

/-- Witness for C9: a second connect from a state with attempt id 1 still in
flight mints id 2 and overwrites, and the stale `WebSocketConnected(1)` is
then discarded. -/
theorem c9_ws_reconnect_overwrites_and_stale_discarded_witness :
    (({ AppState.new with
        nextRequestId := 2
        ws := { WebSocketState.defaultWs with connectionId := some 1 } } : AppState).ws.connected
          = false →
      (AppState.wsConnect 0
        { AppState.new with
          nextRequestId := 2
          ws := { WebSocketState.defaultWs with
            connectionId := some 1 } }).1.ws.connectionId = some 2 ∧
      (AppState.wsConnect 0
        { AppState.new with
          nextRequestId := 2
          ws := { WebSocketState.defaultWs with
            connectionId := some 1 } }).1.nextRequestId = (2 + 1) % U64MOD ∧
      (AppState.wsConnect 0
        { AppState.new with
          nextRequestId := 2
          ws := { WebSocketState.defaultWs with connectionId := some 1 } }).2
        = some (.connectWebSocket 2 "wss://echo.websocket.org")) ∧
    (({ AppState.new with
        nextRequestId := 3
        ws := { WebSocketState.defaultWs with connectionId := some 2 } } : AppState).ws.connectionId
          ≠ some 1 →
      AppState.handleResponse (fun b => b) 0
          { AppState.new with
            nextRequestId := 3
            ws := { WebSocketState.defaultWs with connectionId := some 2 } }
          (.webSocketConnected 1)
        = { AppState.new with
            nextRequestId := 3
            ws := { WebSocketState.defaultWs with connectionId := some 2 } }) :=
  ⟨fun hc =>
    (c9_ws_reconnect_overwrites_and_stale_discarded (fun b => b) 0 0
      { AppState.new with
        nextRequestId := 2
        ws := { WebSocketState.defaultWs with connectionId := some 1 } }).2.1 hc,
   fun hi =>
    ((c9_ws_reconnect_overwrites_and_stale_discarded (fun b => b) 0 0
      { AppState.new with
        nextRequestId := 3
        ws := { WebSocketState.defaultWs with connectionId := some 2 } }).2.2 1 hi).1⟩

-- ========================
-- C6
-- ========================

/-- Embedding of `handle_response` never touches the id counter. -/
theorem handleResponse_nextRequestId (fmt : String → String) (now : Nat)
    (s : AppState) (r : NetworkResponse) :
    (AppState.handleResponse fmt now s r).nextRequestId = s.nextRequestId := by
  cases r <;> simp only [AppState.handleResponse] <;> split <;>
    simp [AppState.finalizeRequest]

/-- Each state owner step either mints no id and keeps the counter, or mints
exactly the current counter value and advances the counter by one. -/
theorem ownerStep_mint (fmt : String → String) (s : AppState) (ev : OwnerEvent) :
    ((ownerStep fmt s ev).1.nextRequestId = s.nextRequestId ∧
      mintedIds (ownerStep fmt s ev).2.toList = []) ∨
    ((ownerStep fmt s ev).1.nextRequestId = (s.nextRequestId + 1) % U64MOD ∧
      mintedIds (ownerStep fmt s ev).2.toList = [s.nextRequestId]) := by
  cases ev with
  | sendRequest =>
      by_cases hl : s.isLoading = true
      · left
        by_cases hm : s.inputMode = .editing <;>
          simp [ownerStep, AppState.handleSendRequest, AppState.stopEditing,
            AppState.prepareStreamingRequest, hm, hl, mintedIds]
      · right
        replace hl : s.isLoading = false := by simpa using hl
        by_cases hm : s.inputMode = .editing <;>
          simp [ownerStep, AppState.handleSendRequest, AppState.stopEditing,
            AppState.prepareStreamingRequest, AppState.nextId, hm, hl,
            mintedIds, NetworkCommand.mintedId]
  | cancelEvent =>
      left
      cases hc : s.pendingRequestId <;>
        simp [ownerStep, AppState.cancelRequest, hc, mintedIds, NetworkCommand.mintedId]
  | wsConnectEvent now =>
      by_cases hc : s.ws.connected = true
      · left; simp [ownerStep, AppState.wsConnect, hc, mintedIds]
      · right
        replace hc : s.ws.connected = false := by simpa using hc
        simp [ownerStep, AppState.wsConnect, AppState.nextId, hc,
          mintedIds, NetworkCommand.mintedId]
  | wsDisconnectEvent now =>
      left
      cases hc : s.ws.connectionId <;>
        simp [ownerStep, AppState.wsDisconnect, hc, mintedIds, NetworkCommand.mintedId]
  | wsSendEvent now =>
      left
      simp only [ownerStep, AppState.wsSend]
      split
      · simp [mintedIds]
      · cases hc : s.ws.connectionId <;>
          simp [hc, mintedIds, NetworkCommand.mintedId]
  | netResponse now r =>
      left
      simp [ownerStep, mintedIds, handleResponse_nextRequestId]

/-- Along any run of the state owner loop whose length keeps the u64 counter
below its wrap-around point, the minted ids are bounded below by the starting
counter and form a strictly increasing chain. -/
theorem runOwner_minted_mono (fmt : String → String) (evs : List OwnerEvent) :
    ∀ s : AppState, s.nextRequestId + evs.length < U64MOD →
      (∀ x ∈ mintedIds (runOwner fmt s evs).2, s.nextRequestId ≤ x) ∧
      List.Chain' (· < ·) (mintedIds (runOwner fmt s evs).2) := by
  induction evs with
  | nil => intro s _; simp [runOwner, mintedIds]
  | cons ev rest ih =>
      intro s h
      rw [List.length_cons] at h
      rcases hse : ownerStep fmt s ev with ⟨s1, c⟩
      rcases hrr : runOwner fmt s1 rest with ⟨s2, cs⟩
      have hrun : runOwner fmt s (ev :: rest) = (s2, c.toList ++ cs) := by
        simp [runOwner, hse, hrr]
      rw [hrun]
      have hmint := ownerStep_mint fmt s ev
      rw [hse] at hmint
      simp only at hmint
      have hsplit : mintedIds (c.toList ++ cs) = mintedIds c.toList ++ mintedIds cs := by
        simp [mintedIds]
      rcases hmint with ⟨hn, hm⟩ | ⟨hn, hm⟩
      · have h1 : s1.nextRequestId + rest.length < U64MOD := by omega
        have hih := ih s1 h1
        rw [hrr] at hih
        simp only at hih
        rw [hsplit, hm, hn] at *
        simpa using hih
      · have hlt : s.nextRequestId + 1 < U64MOD := by omega
        have hmod : (s.nextRequestId + 1) % U64MOD = s.nextRequestId + 1 :=
          Nat.mod_eq_of_lt hlt
        have h1 : s1.nextRequestId + rest.length < U64MOD := by
          rw [hn, hmod]; omega
        obtain ⟨hb, hch⟩ := ih s1 h1
        rw [hrr] at hb hch
        simp only at hb hch
        rw [hsplit, hm]
        rw [hn, hmod] at hb
        constructor
        · intro x hx
          rcases List.mem_append.mp hx with hx1 | hx2
          · simp at hx1; omega
          · have := hb x hx2; omega
        · have : (([s.nextRequestId] : List Nat) ++ mintedIds cs)
              = s.nextRequestId :: mintedIds cs := by simp
          rw [this]
          refine List.chain'_cons'.mpr ⟨?_, hch⟩
          intro y hy
          have hymem : y ∈ mintedIds cs := List.mem_of_mem_head? hy
          have := hb y hymem
          omega

/-- C6: the id counter is owned by the state owner and is strictly
monotonically increasing: `next_id` returns the current counter and advances
it by one (u64 wrapping), each identity-establishing command consumes exactly
one id, and along any run of the state owner loop short enough that the u64
counter cannot wrap, the minted ids form a strictly increasing list with no
duplicates: no id is ever minted twice. -/
theorem c6_minted_ids_strictly_increasing (fmt : String → String)
    (evs : List OwnerEvent) (h : AppState.new.nextRequestId + evs.length < U64MOD) :
    (∀ s : AppState, s.nextId.1 = s.nextRequestId ∧
        s.nextId.2.nextRequestId = (s.nextRequestId + 1) % U64MOD) ∧
    List.Chain' (· < ·) (mintedIds (runOwner fmt AppState.new evs).2) ∧
    (mintedIds (runOwner fmt AppState.new evs).2).Nodup := by
  have hch := (runOwner_minted_mono fmt evs AppState.new h).2
  refine ⟨fun s => ⟨rfl, rfl⟩, hch, ?_⟩
  have hpw : List.Pairwise (· < ·) (mintedIds (runOwner fmt AppState.new evs).2) :=
    List.chain'_iff_pairwise.mp hch
  exact hpw.imp Nat.ne_of_lt

/-- Witness for C6 on a concrete two-mint run: a send and a WebSocket
connect from the initial state mint ids 1 and 2. -/
theorem c6_minted_ids_strictly_increasing_witness :
    AppState.new.nextRequestId
        + ([OwnerEvent.sendRequest, OwnerEvent.wsConnectEvent 0] : List OwnerEvent).length
      < U64MOD ∧
    ((∀ s : AppState, s.nextId.1 = s.nextRequestId ∧
        s.nextId.2.nextRequestId = (s.nextRequestId + 1) % U64MOD) ∧
      List.Chain' (· < ·)
        (mintedIds (runOwner (fun b => b) AppState.new
          [OwnerEvent.sendRequest, OwnerEvent.wsConnectEvent 0]).2) ∧
      (mintedIds (runOwner (fun b => b) AppState.new
        [OwnerEvent.sendRequest, OwnerEvent.wsConnectEvent 0]).2).Nodup) :=
  ⟨by decide,
   c6_minted_ids_strictly_increasing (fun b => b)
     [OwnerEvent.sendRequest, OwnerEvent.wsConnectEvent 0] (by decide)⟩

end Freeman
